import Mathlib

/-
Verification development for the 305-Crypto-Forecaster repository.

The Python sources are shallowly embedded: pure record-manipulating code is
translated into executable Lean definitions, the outside world (HTTP
responses, library model fits, environment variables) is passed in
explicitly as data, prices and scores are modelled by rationals, Python's
NaN sentinel by `Option`, a raised-and-uncaught Python exception by
`Except.error`, and a Python dict that may be absent (a provider returning
an empty dict on failure) by `Option` of a record of its fields.
-/

/-- Python truthiness of an `os.getenv` result: `None` and the empty string
are falsy, every other string is truthy. -/
def pyTruthy : Option String → Bool
  | none => false
  | some s => !(s == "")

/-- One daily OHLCV bar of the price-history frame returned by
`yf.download` (src/data_utils.py line 169). -/
structure PriceBar where
  op : ℚ
  hi : ℚ
  lo : ℚ
  close : ℚ
  vol : ℚ
deriving DecidableEq

/-- Fields of the dict built by `fetch_coinglass_data`
(src/data_utils.py lines 30-51). -/
structure CoinglassMetrics where
  fundingRate : ℚ
  openInterest : ℚ
  longShort : ℚ
  futuresVol : ℚ
deriving DecidableEq

/-- Fields of the dict built by `fetch_coingecko_data`
(src/data_utils.py lines 144-152). -/
structure CoingeckoMetrics where
  marketCapRank : ℚ
  athUsd : ℚ
  totalVolume : ℚ
  circulatingSupply : ℚ
  communityScore : ℚ
  developerScore : ℚ
  sentimentUpPct : ℚ
deriving DecidableEq

/-- Outcome of one `fetch_coingecko_data` call (src/data_utils.py lines
134-157).  Unlike the other three metric helpers, whose catch-all
`except Exception` turns any failure into an empty dict, this helper
catches only `requests.exceptions.RequestException` (line 155): any
other exception — e.g. the `AttributeError` its `.get` chain (lines
146-148) raises on a 2xx body whose `market_data` is null or not a
dict — escapes the helper and is caught only by `fetch_data`'s outer
except (lines 219-221), which returns the empty frame.  `raised` is
that escaping path, `empty` the caught-RequestException empty dict,
`data` a successful metrics dict. -/
inductive CoingeckoResult where
  | raised
  | empty
  | data (m : CoingeckoMetrics)
deriving DecidableEq

/-- The dict visible to `fetch_data`'s column assignment: `none` models
the empty dict of the caught failure path; the escaping path never
reaches column assignment. -/
def CoingeckoResult.dict : CoingeckoResult → Option CoingeckoMetrics
  | CoingeckoResult.data m => some m
  | _ => none

/-- Whether the helper's exception escapes into `fetch_data`'s outer
except. -/
def CoingeckoResult.escapes : CoingeckoResult → Bool
  | CoingeckoResult.raised => true
  | _ => false

/-- Fields of the dict built by `fetch_santiment_data`
(src/data_utils.py lines 96-100). -/
structure SantimentMetrics where
  mvrv : ℚ
  socialDominance : ℚ
  dailyActive : ℚ
deriving DecidableEq

/-- Fields of the dict built by `fetch_lunarcrush_data`
(src/data_utils.py lines 124-127). -/
structure LunarMetrics where
  galaxyScore : ℚ
  altRank : ℚ
deriving DecidableEq

/-- The result of `fetch_cryptoquant_data` (src/data_utils.py lines 65-70):
the placeholder unconditionally returns the dict
`\x7b'exchange_supply_ratio': 0.0\x7d`; it performs no network call and
cannot fail. -/
def fetch_cryptoquant_data : ℚ := 0

/-- Python float division as performed by `long_rate / short_rate`
(src/data_utils.py line 51): dividing by zero raises `ZeroDivisionError`,
modelled as `Except.error`. -/
def pyDivQ (a b : ℚ) : Except String ℚ :=
  if b = 0 then Except.error "ZeroDivisionError" else Except.ok (a / b)

/-- The long/short computation of `fetch_coinglass_data`
(src/data_utils.py lines 48-51): the division is guarded by
`if short_rate > 0`, the non-positive case yields `0`. -/
def long_short_calc (longRate shortRate : ℚ) : Except String ℚ :=
  if shortRate > 0 then pyDivQ longRate shortRate else Except.ok 0

/-- The same computation including the dict defaults of
src/data_utils.py lines 49-50: `binance_data.get('longRate', 0.0)` and
`binance_data.get('shortRate', 1.0)`; `none` models an absent key. -/
def coinglass_long_short (longField shortField : Option ℚ) : Except String ℚ :=
  long_short_calc (longField.getD 0) (shortField.getD 1)

/-- External-world inputs of one `fetch_data` call (src/data_utils.py
lines 159-221): the outcome of the primary `yf.download` price fetch
(`Except.error` for a raised exception, `Except.ok` for a returned frame,
possibly empty), and the outcome of each metric provider helper.  For
the futures, on-chain/social and social-ranking helpers, whose handlers
catch every exception, `none` models the empty dict they return on any
failure (missing key, non-2xx response, raised exception); the
fundamentals helper's outcome is the three-way `CoingeckoResult`, since
its handler catches only `RequestException` and other exceptions escape
into `fetch_data`'s outer except.  Metric values are modelled as the
numbers the providers report; a null-valued field inside an otherwise
successful reply is outside this model.  `lib` supplies the numeric
values the `ta` indicator library computes where they are defined
(indicator `k` at row `i`); the warm-up NaN pattern of those indicators
is modelled separately in `indCols`. -/
structure FetchEnv where
  priceFetch : Except Unit (List PriceBar)
  coingecko : CoingeckoResult
  coinglass : Option CoinglassMetrics
  santiment : Option SantimentMetrics
  lunar : Option LunarMetrics
  lib : Nat → Nat → ℚ

/-- The indicator columns added by src/data_utils.py lines 174-185, each
`Option ℚ` with `none` modelling NaN.  With the call sites' `ta` defaults
(`fillna=False`, hence `min_periods = window`), each column is NaN for a
fixed warm-up of initial rows: SMA(20) and EMA(20) and the Bollinger
bands for 19 rows, RSI(14) for 14 (its diff consumes one extra row),
MACD(26,12) for 25 and its signal EMA(9) for 33, the stochastic(14) for
13 and its 3-row signal for 15; OBV and the Ichimoku lines (computed by
`ta` with `min_periods=0`) have no warm-up. -/
structure IndCols where
  sma : Option ℚ
  ema : Option ℚ
  rsi : Option ℚ
  macd : Option ℚ
  macdSig : Option ℚ
  bbHigh : Option ℚ
  bbLow : Option ℚ
  stochK : Option ℚ
  stochD : Option ℚ
  obv : Option ℚ
  ichiA : Option ℚ
  ichiB : Option ℚ
deriving DecidableEq

/-- Indicator columns at row `i`, values taken from the library stream
`lib`, NaN warm-ups as documented on `IndCols`. -/
def indCols (lib : Nat → Nat → ℚ) (i : Nat) : IndCols where
  sma := if 19 ≤ i then some (lib 0 i) else none
  ema := if 19 ≤ i then some (lib 1 i) else none
  rsi := if 14 ≤ i then some (lib 2 i) else none
  macd := if 25 ≤ i then some (lib 3 i) else none
  macdSig := if 33 ≤ i then some (lib 4 i) else none
  bbHigh := if 19 ≤ i then some (lib 5 i) else none
  bbLow := if 19 ≤ i then some (lib 6 i) else none
  stochK := if 13 ≤ i then some (lib 7 i) else none
  stochD := if 15 ≤ i then some (lib 8 i) else none
  obv := some (lib 9 i)
  ichiA := some (lib 10 i)
  ichiB := some (lib 11 i)

/-- True when no column of the row is NaN, i.e. the row survives
`df.dropna` (src/data_utils.py line 216). -/
def IndCols.complete (c : IndCols) : Bool :=
  c.sma.isSome && c.ema.isSome && c.rsi.isSome && c.macd.isSome &&
  c.macdSig.isSome && c.bbHigh.isSome && c.bbLow.isSome &&
  c.stochK.isSome && c.stochD.isSome && c.obv.isSome &&
  c.ichiA.isSome && c.ichiB.isSome

/-- One row of the frame `fetch_data` returns: the OHLCV bar, the
indicator columns, and the provider columns of src/data_utils.py
lines 193-214 (each a single scalar broadcast over every row). -/
structure EnrichedRow where
  bar : PriceBar
  ind : IndCols
  marketCapRank : ℚ
  allTimeHigh : ℚ
  txVolume : ℚ
  circSupply : ℚ
  communityScore : ℚ
  developerScore : ℚ
  sentimentUpPct : ℚ
  fundingRate : ℚ
  openInterest : ℚ
  longShort : ℚ
  futuresVol : ℚ
  mvrv : ℚ
  socialDominance : ℚ
  dailyActive : ℚ
  galaxyScore : ℚ
  altRank : ℚ
  exchangeSupply : ℚ
  exchangeNetFlow : ℚ
deriving DecidableEq

/-- Row `i` of the enriched frame: the `.get(key, 0.0)` defaults of
src/data_utils.py lines 193-213 turn an absent provider dict into zero
columns; `Exchange_Net_Flow` is hardcoded `0.0` (line 214). -/
def mkRow (env : FetchEnv) (b : PriceBar) (i : Nat) : EnrichedRow where
  bar := b
  ind := indCols env.lib i
  marketCapRank := (env.coingecko.dict.map (·.marketCapRank)).getD 0
  allTimeHigh := (env.coingecko.dict.map (·.athUsd)).getD 0
  txVolume := (env.coingecko.dict.map (·.totalVolume)).getD 0
  circSupply := (env.coingecko.dict.map (·.circulatingSupply)).getD 0
  communityScore := (env.coingecko.dict.map (·.communityScore)).getD 0
  developerScore := (env.coingecko.dict.map (·.developerScore)).getD 0
  sentimentUpPct := (env.coingecko.dict.map (·.sentimentUpPct)).getD 0
  fundingRate := (env.coinglass.map (·.fundingRate)).getD 0
  openInterest := (env.coinglass.map (·.openInterest)).getD 0
  longShort := (env.coinglass.map (·.longShort)).getD 0
  futuresVol := (env.coinglass.map (·.futuresVol)).getD 0
  mvrv := (env.santiment.map (·.mvrv)).getD 0
  socialDominance := (env.santiment.map (·.socialDominance)).getD 0
  dailyActive := (env.santiment.map (·.dailyActive)).getD 0
  galaxyScore := (env.lunar.map (·.galaxyScore)).getD 0
  altRank := (env.lunar.map (·.altRank)).getD 0
  exchangeSupply := fetch_cryptoquant_data
  exchangeNetFlow := 0

/-- Enrichment of the bars starting at row index `i`. -/
def enrichFrom (env : FetchEnv) (i : Nat) : List PriceBar → List EnrichedRow
  | [] => []
  | b :: bs => mkRow env b i :: enrichFrom env (i + 1) bs

/-- Shallow embedding of `fetch_data` (src/data_utils.py lines 159-221):
a raised or empty primary price fetch yields the empty frame (lines
169-170); an exception escaping `fetch_coingecko_data` (called at line
187, before the other providers) is caught by the outer except of lines
219-221 and also yields the empty frame; otherwise the frame is
annotated with indicator and provider columns and the rows containing
any NaN are dropped (`df.dropna`, line 216). -/
def fetch_data (env : FetchEnv) : List EnrichedRow :=
  match env.priceFetch with
  | Except.error _ => []
  | Except.ok bars =>
    if bars.isEmpty then []
    else if env.coingecko.escapes then []
    else (enrichFrom env 0 bars).filter (fun r => r.ind.complete)

/-- Shallow embedding of `prophet_forecast` (src/forecasting.py lines
12-48): an empty frame yields the NaN sentinel (line 23-25); otherwise
the third-party Prophet fit runs inside a try/except, its outcome
supplied as `fit` (`none` models a raised exception, mapped to NaN by
the except branch, line 46-48). -/
def prophet_forecast (closes : List ℚ) (fit : Option ℚ) : Option ℚ :=
  if closes.isEmpty then none else fit

/-- Shallow embedding of `lstm_forecast` (src/forecasting.py lines
50-104): a frame that is empty or has at most `look_back_period` rows
yields the NaN sentinel before any model work (line 62-64); otherwise
the third-party Keras fit runs inside a try/except, its outcome supplied
as `fit` (`none` models a raised exception, mapped to NaN, line 102-104).
The caller in src/daily_runner.py uses the default
`look_back_period = 60`. -/
def lstm_forecast (look_back_period : Nat) (closes : List ℚ) (fit : Option ℚ) : Option ℚ :=
  if closes.isEmpty || closes.length ≤ look_back_period then none else fit

/-- One article of a NewsAPI response (src/sentiment.py line 44-50). -/
structure NewsArticle where
  title : String
  descr : String
deriving DecidableEq

/-- External-world inputs of one `get_news_sentiment` call
(src/sentiment.py lines 7-89): the two environment keys, the NewsAPI
request outcome (`Except.error` models a raised
`requests.exceptions.RequestException`, including `raise_for_status`),
and the OpenAI chat-completion outcome (`Except.error` models any raised
exception, `Except.ok` carries the reply content string). -/
structure SentimentEnv where
  newsApiKey : Option String
  openaiApiKey : Option String
  newsResponse : Except Unit (List NewsArticle)
  llmResponse : Except Unit String

/-- Value of a decimal digit character, `none` otherwise. -/
def digitVal (c : Char) : Option Nat :=
  if c.isDigit then some (c.toNat - 48) else none

/-- Longest leading run of digits and the remaining characters. -/
def takeDigits : List Char → (List Nat × List Char)
  | [] => ([], [])
  | c :: cs =>
    match digitVal c with
    | some d =>
      let p := takeDigits cs
      (d :: p.1, p.2)
    | none => ([], c :: cs)

/-- Natural number denoted by a digit list (most significant first). -/
def natOfDigits (ds : List Nat) : Nat := ds.foldl (fun a d => a * 10 + d) 0

/-- Greedy match of the regular expression `-?\d+\.?\d*` anchored at the
start of `cs` (src/sentiment.py line 73), returned as its digit groups:
the sign, the integer-part digits, and the fractional-part digits. -/
def matchNumAt (cs : List Char) : Option (Bool × List Nat × List Nat) :=
  let neg : Bool := cs.head? == some '-'
  let cs1 := if neg then cs.drop 1 else cs
  let d := takeDigits cs1
  if d.1.isEmpty then none
  else
    let fds := if d.2.head? == some '.' then (takeDigits (d.2.drop 1)).1 else []
    some (neg, d.1, fds)

/-- Leftmost match of `re.search(r"(-?\d+\.?\d*)", content)`
(src/sentiment.py line 73), as digit groups. -/
def reSearchGroups : List Char → Option (Bool × List Nat × List Nat)
  | [] => none
  | c :: cs =>
    match matchNumAt (c :: cs) with
    | some g => some g
    | none => reSearchGroups cs

/-- Python's `float(match.group(0))` (src/sentiment.py line 75) applied
to the digit groups of a match. -/
def groupsToQ (g : Bool × List Nat × List Nat) : ℚ :=
  let mag : ℚ := (natOfDigits g.2.1 : ℚ) + (natOfDigits g.2.2 : ℚ) / (10 : ℚ) ^ g.2.2.length
  if g.1 then -mag else mag

/-- The number `re.search` plus `float` extract from the model reply, or
`none` when the pattern does not occur (src/sentiment.py lines 73-75). -/
def reSearchNumber (cs : List Char) : Option ℚ :=
  (reSearchGroups cs).map groupsToQ

/-- The clamp `max(-1.0, min(1.0, score))` of src/sentiment.py line 77. -/
def clampScore (x : ℚ) : ℚ := max (-1) (min 1 x)

/-- Body of the try-block of `get_news_sentiment` (src/sentiment.py
lines 23-82); `Except.error` is an exception escaping the try-block,
each early `return 0.0` of the source is an `Except.ok 0` branch. -/
def sentimentCore (env : SentimentEnv) : Except Unit ℚ :=
  if !pyTruthy env.newsApiKey then Except.ok 0
  else
    match env.newsResponse with
    | Except.error e => Except.error e
    | Except.ok articles =>
      if articles.isEmpty then Except.ok 0
      else if !pyTruthy env.openaiApiKey then Except.ok 0
      else
        match env.llmResponse with
        | Except.error e => Except.error e
        | Except.ok content =>
          match reSearchNumber content.toList with
          | some score => Except.ok (clampScore score)
          | none => Except.ok 0

/-- Shallow embedding of `get_news_sentiment` (src/sentiment.py lines
7-89): both except-handlers (lines 84-89) return `0.0`. -/
def get_news_sentiment (env : SentimentEnv) : ℚ :=
  match sentimentCore env with
  | Except.ok r => r
  | Except.error _ => 0

/-- One headline object as carried in `top_headlines`: a (title, url)
pair. -/
structure Headline where
  title : String
  url : String
deriving DecidableEq

/-- The five keys `get_daily_analysis` reads from the model's parsed JSON
reply (src/analyst.py lines 66-86); `none` models an absent key, handled
by `.get` defaults. -/
structure AiReportReply where
  rTitle : Option String
  rRecap : Option String
  rBullish : Option String
  rBearish : Option String
  rHypothesis : Option String
deriving DecidableEq

/-- The dict returned by `get_daily_analysis` (src/analyst.py lines
20-99).  The `news_links` value is `json.dumps` of a headline list in
the source; it is modelled here by the list it serializes. -/
structure AnalysisOut where
  summary : String
  hypothesis : String
  newsLinks : List Headline
  reportTitle : String
  reportRecap : String
  reportBullish : String
  reportBearish : String
  reportHypothesis : String
deriving DecidableEq

/-- Shallow embedding of `get_daily_analysis` (src/analyst.py lines
15-99).  `clientOk` is whether the module-level OpenAI client was
constructed (lines 9-13, 20-25); `reply` is the outcome of the chat
completion plus JSON parse (`Except.error` models any raised exception,
handled at lines 91-99); `topHeadlines` is
`daily_briefing_data.get("top_headlines", [])` (line 78). -/
def get_daily_analysis (clientOk : Bool) (reply : Except Unit AiReportReply)
    (topHeadlines : List Headline) : AnalysisOut :=
  if !clientOk then
    { summary := "AI analysis failed because the OpenAI client is not configured."
      hypothesis := "Configuration error."
      newsLinks := []
      reportTitle := ""
      reportRecap := ""
      reportBullish := ""
      reportBearish := ""
      reportHypothesis := "" }
  else
    match reply with
    | Except.error _ =>
      { summary := "AI analysis could not be generated due to an API error."
        hypothesis := "error"
        newsLinks := []
        reportTitle := "Analysis Failed"
        reportRecap := ""
        reportBullish := ""
        reportBearish := ""
        reportHypothesis := "" }
    | Except.ok r =>
      { summary := "### Bullish Case\n" ++ r.rBullish.getD "" ++
          "\n\n### Bearish Case\n" ++ r.rBearish.getD ""
        hypothesis := r.rHypothesis.getD "No hypothesis generated."
        newsLinks := topHeadlines
        reportTitle := r.rTitle.getD "Daily Analysis"
        reportRecap := r.rRecap.getD ""
        reportBullish := r.rBullish.getD ""
        reportBearish := r.rBearish.getD ""
        reportHypothesis := r.rHypothesis.getD "" }

/-- Headline back-matching as the specification describes it (spec
sections 4.3 and 8): each model-selected title is re-associated with its
original URL by exact string match against the original headline list,
titles with no exact match silently dropped.  Stated from the spec's
words, for comparison with the source-derived `get_daily_analysis`. -/
def specBackMatch (headlines : List Headline) (selection : List String) : List Headline :=
  selection.filterMap (fun t => headlines.find? (fun h => h.title == t))

/-- Parameter names of `sentiment.get_news_sentiment`
(src/sentiment.py line 7): the function accepts exactly
`coin_ticker` and `coin_name`. -/
def sentimentParams : List String := ["coin_ticker", "coin_name"]

/-- Keyword-argument names at the call
`get_news_sentiment(coin_ticker=ticker, coin_name=name, api_key=news_api_key)`
in `run_daily_analysis` (src/daily_runner.py line 92). -/
def runnerSentimentCallKwargs : List String := ["coin_ticker", "coin_name", "api_key"]

/-- Python call binding: a keyword-argument call succeeds only if every
keyword names a declared parameter; otherwise `TypeError` is raised. -/
def kwargsAccepted (params kwargs : List String) : Bool :=
  kwargs.all (fun k => params.contains k)

/-- Number of values `get_news_sentiment` returns: a single float
(src/sentiment.py lines 7 and 79). -/
def sentimentResultArity : Nat := 1

/-- Number of names the call site unpacks the result into:
`sentiment_score, top_headlines = get_news_sentiment(...)`
(src/daily_runner.py line 92); a Python tuple-unpack of a float raises
`TypeError`. -/
def runnerSentimentUnpackArity : Nat := 2

/-- Top-level names defined by src/forecasting.py:
`prophet_forecast` (line 12) and `lstm_forecast` (line 50). -/
def forecastingModuleDefs : List String := ["prophet_forecast", "lstm_forecast"]

/-- Names `daily_runner` imports from the forecasting module:
`from forecasting import prophet_forecast, lstm_forecast, prophet_forecast_highs`
(src/daily_runner.py line 35). -/
def dailyRunnerForecastingImports : List String :=
  ["prophet_forecast", "lstm_forecast", "prophet_forecast_highs"]

/-- Whether the module imports of src/daily_runner.py lines 33-41 all
resolve; an unresolved name raises `ImportError`, caught at lines 42-44,
which logs and calls `exit(1)` before `run_daily_analysis` can run. -/
def importsResolve : Bool :=
  dailyRunnerForecastingImports.all (fun n => forecastingModuleDefs.contains n)

/-- The claim-relevant columns of one row assembled by
`run_daily_analysis` for the `forecasts` table (src/daily_runner.py
lines 126-178): `Date`, `Coin`, `Actual_Price` and the two nullable
feedback columns.  The remaining numeric and narrative columns of the
schema (src/db_utils.py lines 44-103) are orthogonal to every claim and
are not tracked. -/
structure DbInputRow where
  date : Int
  coin : String
  actualPrice : ℚ
  userFeedback : Option String
  userCorrection : Option String
deriving DecidableEq

/-- A persisted row of the `forecasts` table: an assembled row plus the
auto-incrementing integer primary key `id`
(src/db_utils.py line 45). -/
structure DbRow where
  id : Nat
  date : Int
  coin : String
  actualPrice : ℚ
  userFeedback : Option String
  userCorrection : Option String
deriving DecidableEq

/-- State of the `forecasts` table: its rows in insertion order and the
next value of the auto-incrementing key. -/
structure DbState where
  rows : List DbRow
  nextId : Nat
deriving DecidableEq

/-- A freshly created, empty `forecasts` table, as `init_db`
(src/db_utils.py lines 108-120) leaves it. -/
def dbEmpty : DbState := { rows := [], nextId := 0 }

/-- Rows of a batch turned into table rows with consecutive ids starting
at `i` (the insert order of `results_df.to_sql(..., if_exists='append')`,
src/db_utils.py line 127). -/
def rowsFrom (i : Nat) : List DbInputRow → List DbRow
  | [] => []
  | r :: rs =>
    { id := i, date := r.date, coin := r.coin, actualPrice := r.actualPrice,
      userFeedback := r.userFeedback, userCorrection := r.userCorrection } ::
    rowsFrom (i + 1) rs

/-- Shallow embedding of `save_forecast_results` (src/db_utils.py lines
122-131): the whole batch is appended to the table in one call, each row
receiving the next auto-increment id. -/
def save_forecast_results (db : DbState) (batch : List DbInputRow) : DbState :=
  { rows := db.rows ++ rowsFrom db.nextId batch
    nextId := db.nextId + batch.length }

/-- The comparison of `ORDER BY "Date" DESC, id DESC`
(src/db_utils.py line 137): `a` sorts no later than `b`. -/
def loadLe (a b : DbRow) : Bool :=
  decide (b.date < a.date) || (decide (b.date = a.date) && decide (b.id ≤ a.id))

/-- Shallow embedding of `load_forecast_results` (src/db_utils.py lines
133-149): every row of the table, ordered by date descending and, on
equal dates, by id descending. -/
def load_forecast_results (db : DbState) : List DbRow :=
  db.rows.mergeSort loadLe

/-- The per-row effect of the UPDATE statement of `update_feedback`
(src/db_utils.py lines 157-159): the row whose primary key matches gets
its two feedback columns set, every other row is untouched. -/
def setFeedback (recordId : Nat) (feedback correction : String) (r : DbRow) : DbRow :=
  if r.id = recordId then
    { r with userFeedback := some feedback, userCorrection := some correction }
  else r

/-- Shallow embedding of `update_feedback` (src/db_utils.py lines
151-166). -/
def update_feedback (db : DbState) (recordId : Nat) (feedback correction : String) : DbState :=
  { db with rows := db.rows.map (setFeedback recordId feedback correction) }

/-- The environment variables read by the module-level connection logic
of src/db_utils.py lines 15-36. -/
structure DbEnvVars where
  databaseUrl : Option String
  dbUser : Option String
  dbPass : Option String
  dbHost : Option String
  dbPort : Option String
  dbName : Option String
deriving DecidableEq

/-- The message of the exception raised at src/db_utils.py line 33. -/
def dbMissingConfigMsg : String :=
  "Missing local database environment variables (DB_USER, etc.) and DATABASE_URL is not set."

/-- The driver rewrite of src/db_utils.py lines 21-22: a URL starting
with `postgres://` has that first occurrence replaced by
`postgresql+psycopg://`. -/
def stripToPsycopg (url : String) : String :=
  if url.startsWith "postgres://" then "postgresql+psycopg://" ++ url.drop 11 else url

/-- The fallback URL assembled at src/db_utils.py line 35. -/
def localDbUrl (e : DbEnvVars) : String :=
  "postgresql+psycopg://" ++ e.dbUser.getD "" ++ ":" ++ e.dbPass.getD "" ++ "@" ++
  e.dbHost.getD "" ++ ":" ++ e.dbPort.getD "" ++ "/" ++ e.dbName.getD ""

/-- Shallow embedding of the module-level engine initialization of
src/db_utils.py lines 15-39, executed at import time: a truthy
`DATABASE_URL` wins; otherwise all five discrete parameters must be
truthy (`if not all([...])`, line 32) or the module raises.  The result
carries the connection URL the engine is created from. -/
def initEngine (e : DbEnvVars) : Except String String :=
  if pyTruthy e.databaseUrl then
    Except.ok (stripToPsycopg (e.databaseUrl.getD ""))
  else if pyTruthy e.dbUser && pyTruthy e.dbPass && pyTruthy e.dbHost &&
      pyTruthy e.dbPort && pyTruthy e.dbName then
    Except.ok (localDbUrl e)
  else
    Except.error dbMissingConfigMsg

/-- Shallow embedding of the loop body of `run_daily_analysis` for one
asset (src/daily_runner.py lines 75-182).  The guard of lines 78-80
skips an asset whose fetched frame is empty or shorter than 61 rows.
After the guard, the body cannot reach record assembly in this revision
of the source: the call `prophet_forecast_highs(...)` (line 91) names a
function src/forecasting.py does not define, raising `NameError`, and
the call to `get_news_sentiment` (line 92) passes an `api_key` keyword
the function's signature (src/sentiment.py line 7) does not accept and
unpacks the single returned float into two names, raising `TypeError`;
either exception is caught by the per-asset handler (lines 180-182),
which logs and continues, so the asset yields no record. -/
def processAsset (runTime : Int) (ticker : String) (env : FetchEnv) : Option DbInputRow :=
  let md := fetch_data env
  if md.isEmpty || md.length < 61 then
    none
  else if !(forecastingModuleDefs.contains "prophet_forecast_highs") then
    none
  else if !(kwargsAccepted sentimentParams runnerSentimentCallKwargs &&
      sentimentResultArity == runnerSentimentUnpackArity) then
    none
  else
    some { date := runTime
           coin := ticker
           actualPrice := ((fetch_data env).getLast?.map (fun r => r.bar.close)).getD 0
           userFeedback := none
           userCorrection := none }

/-- The batch `all_results` accumulated by the loop of
`run_daily_analysis` (src/daily_runner.py lines 71-182): assets are
processed in order, each in isolation, skipped assets contributing
nothing. -/
def runBatch (runTime : Int) (assets : List (String × FetchEnv)) : List DbInputRow :=
  assets.filterMap (fun p => processAsset runTime p.1 p.2)

/-- Shallow embedding of a whole `run_daily_analysis` invocation
(src/daily_runner.py lines 58-192) over the table state: `none` models
the process having exited at import time (lines 42-44, `exit(1)`),
which is what this revision does since `prophet_forecast_highs` cannot
be imported; a non-empty batch is saved in one call, an empty batch
leaves the table untouched (lines 185-192). -/
def run_daily_analysis (runTime : Int) (assets : List (String × FetchEnv))
    (db : DbState) : Option DbState :=
  if !importsResolve then none
  else
    let batch := runBatch runTime assets
    some (if batch.isEmpty then db else save_forecast_results db batch)

/-- Bounds of the clamp of src/sentiment.py line 77. -/
theorem clampScore_bounds (x : ℚ) : -1 ≤ clampScore x ∧ clampScore x ≤ 1 := by
  constructor
  · exact le_max_left _ _
  · exact max_le (by norm_num) (min_le_left _ _)

/-- C9: in `fetch_coinglass_data`, the long/short computation is total —
the division is guarded by `short_rate > 0`, a non-strictly-positive
short rate yields `0` without dividing, and no input from the provider
can raise `ZeroDivisionError`. -/
theorem c9_long_short_total (longField shortField : Option ℚ) :
    (∃ q, coinglass_long_short longField shortField = Except.ok q) ∧
    (∀ s, shortField = some s → s ≤ 0 →
      coinglass_long_short longField shortField = Except.ok 0) := by
  constructor
  · unfold coinglass_long_short long_short_calc pyDivQ
    by_cases h : (0 : ℚ) < shortField.getD 1
    · rw [if_pos h, if_neg (by exact ne_of_gt h)]
      exact ⟨_, rfl⟩
    · rw [if_neg h]
      exact ⟨0, rfl⟩
  · intro s hs hle
    subst hs
    unfold coinglass_long_short long_short_calc
    rw [if_neg]
    simp only [Option.getD_some]
    exact not_lt.mpr hle

/-- Witness for C9 at a concrete provider response: `shortRate = 0`. -/
theorem c9_witness :
    coinglass_long_short (some 5) (some 0) = Except.ok 0 :=
  (c9_long_short_total (some 5) (some 0)).2 0 rfl le_rfl

/-- C8: when `DATABASE_URL` is not (truthily) set and at least one of the
five discrete connection parameters is not (truthily) set, the
module-level initialization of src/db_utils.py raises at import time. -/
theorem c8_missing_config_fatal (e : DbEnvVars)
    (hurl : pyTruthy e.databaseUrl = false)
    (hmiss : pyTruthy e.dbUser = false ∨ pyTruthy e.dbPass = false ∨
      pyTruthy e.dbHost = false ∨ pyTruthy e.dbPort = false ∨
      pyTruthy e.dbName = false) :
    initEngine e = Except.error dbMissingConfigMsg := by
  unfold initEngine
  rw [hurl]
  have hall : (pyTruthy e.dbUser && pyTruthy e.dbPass && pyTruthy e.dbHost &&
      pyTruthy e.dbPort && pyTruthy e.dbName) = false := by
    rcases hmiss with h | h | h | h | h <;> simp [h]
  rw [hall]
  rfl

/-- Witness for C8: the fully empty environment. -/
theorem c8_witness :
    pyTruthy (none : Option String) = false ∧
    initEngine ⟨none, none, none, none, none, none⟩ = Except.error dbMissingConfigMsg :=
  ⟨rfl, c8_missing_config_fatal ⟨none, none, none, none, none, none⟩ rfl (Or.inl rfl)⟩

/-- C6: with at most 60 bars of history, `lstm_forecast` (called with its
default `look_back_period = 60`) returns its NaN sentinel before any
model work and without raising, while `prophet_forecast` on the same
non-empty frame is not length-guarded and still returns whatever numeric
value the Prophet fit produces — the minimum-length requirement is
asymmetric between the two generators. -/
theorem c6_lstm_min_length (closes : List ℚ) (fitL : Option ℚ)
    (h : closes.length ≤ 60) :
    lstm_forecast 60 closes fitL = none ∧
    (closes ≠ [] → ∀ q : ℚ, prophet_forecast closes (some q) = some q) := by
  constructor
  · unfold lstm_forecast
    rw [if_pos]
    simp [h]
  · intro hne q
    unfold prophet_forecast
    rw [if_neg]
    simp [hne]

/-- Witness for C6: a 30-bar series, on which the windowed generator
returns its sentinel while the other generator can still succeed. -/
theorem c6_witness :
    (List.replicate 30 (1 : ℚ)).length ≤ 60 ∧
    lstm_forecast 60 (List.replicate 30 (1 : ℚ)) none = none ∧
    prophet_forecast (List.replicate 30 (1 : ℚ)) (some 7) = some 7 := by
  refine ⟨by simp, (c6_lstm_min_length _ none (by simp)).1,
    (c6_lstm_min_length _ none (by simp)).2 (by simp) 7⟩

/-- Concrete headlines of the C4 scenario. -/
def c4Headlines : List Headline := [⟨"A", "u1"⟩, ⟨"B", "u2"⟩]

/-- C4 counterexample: the narrative generator of this revision performs
no back-matching at all — for input headlines A/u1 and B/u2 it embeds
the full original list as `news_links`, not the claimed
`[\x7b"title":"B","url":"u2"\x7d]`, whatever titles the model selected
(the prompt of src/analyst.py lines 32-51 never asks for a selection and
lines 74-86 serialize `top_headlines` unchanged).  The spec-described
back-matching (`specBackMatch`) would return exactly the claimed list. -/
theorem c4_counterexample :
    (get_daily_analysis true (Except.ok ⟨none, none, none, none, none⟩) c4Headlines).newsLinks
      = c4Headlines ∧
    (get_daily_analysis true (Except.ok ⟨none, none, none, none, none⟩) c4Headlines).newsLinks
      ≠ [⟨"B", "u2"⟩] ∧
    specBackMatch c4Headlines ["B", "C"] = [⟨"B", "u2"⟩] := by
  exact ⟨rfl, by decide, by decide⟩

/-- C4 amended: `get_daily_analysis` performs no model-driven selection
and no URL back-matching; on a successful model reply it embeds the
entire original headline list unchanged as the influential-news list,
and on its failure paths (unconfigured client, API or parse error) it
embeds the empty list. -/
theorem c4_amended (reply : AiReportReply) (hs : List Headline) :
    (get_daily_analysis true (Except.ok reply) hs).newsLinks = hs ∧
    (get_daily_analysis true (Except.error ()) hs).newsLinks = [] ∧
    (get_daily_analysis false (Except.ok reply) hs).newsLinks = [] :=
  ⟨rfl, rfl, rfl⟩

/-- C10: `get_news_sentiment` never propagates an exception, its result
always lies in [-1, 1], a parsed score is clamped to that interval, and
every failure path (missing news key, news-API exception, no articles,
missing OpenAI key, OpenAI exception, unparseable reply) returns
exactly 0. -/
theorem c10_sentiment_bounded_total (env : SentimentEnv) :
    (-1 ≤ get_news_sentiment env ∧ get_news_sentiment env ≤ 1) ∧
    (pyTruthy env.newsApiKey = false → get_news_sentiment env = 0) ∧
    (env.newsResponse = Except.error () → get_news_sentiment env = 0) ∧
    (env.newsResponse = Except.ok [] → get_news_sentiment env = 0) ∧
    (pyTruthy env.openaiApiKey = false → get_news_sentiment env = 0) ∧
    (env.llmResponse = Except.error () → get_news_sentiment env = 0) ∧
    (∀ s, env.llmResponse = Except.ok s → reSearchNumber s.toList = none →
      get_news_sentiment env = 0) ∧
    (∀ s q arts, env.newsResponse = Except.ok arts → arts ≠ [] →
      env.llmResponse = Except.ok s → reSearchNumber s.toList = some q →
      pyTruthy env.newsApiKey = true → pyTruthy env.openaiApiKey = true →
      get_news_sentiment env = clampScore q) := by
  obtain ⟨nk, okey, nr, lr⟩ := env
  by_cases hnk : pyTruthy nk = true
  case neg =>
    have hnk' : pyTruthy nk = false := by simpa using hnk
    have hval : get_news_sentiment ⟨nk, okey, nr, lr⟩ = 0 := by
      simp [get_news_sentiment, sentimentCore, hnk']
    refine ⟨by rw [hval]; norm_num, fun _ => hval, fun _ => hval, fun _ => hval,
      fun _ => hval, fun _ => hval, fun _ _ _ => hval, ?_⟩
    intro s q arts _ _ _ _ h5 _
    exact absurd h5 (by simp [hnk'])
  case pos =>
    cases nr with
    | error e =>
      cases e
      have hval : get_news_sentiment ⟨nk, okey, Except.error (), lr⟩ = 0 := by
        simp [get_news_sentiment, sentimentCore, hnk]
      refine ⟨by rw [hval]; norm_num, fun _ => hval, fun _ => hval, fun _ => hval,
        fun _ => hval, fun _ => hval, fun _ _ _ => hval, ?_⟩
      intro s q arts h1 _ _ _ _ _
      exact absurd h1 (by simp)
    | ok arts =>
      cases arts with
      | nil =>
        have hval : get_news_sentiment ⟨nk, okey, Except.ok [], lr⟩ = 0 := by
          simp [get_news_sentiment, sentimentCore, hnk]
        refine ⟨by rw [hval]; norm_num, fun _ => hval, fun _ => hval, fun _ => hval,
          fun _ => hval, fun _ => hval, fun _ _ _ => hval, ?_⟩
        intro s q arts' h1 h2 _ _ _ _
        exact absurd h1 (by simp [eq_comm, h2])
      | cons a as =>
        by_cases hok : pyTruthy okey = true
        case neg =>
          have hok' : pyTruthy okey = false := by simpa using hok
          have hval : get_news_sentiment ⟨nk, okey, Except.ok (a :: as), lr⟩ = 0 := by
            simp [get_news_sentiment, sentimentCore, hnk, hok']
          refine ⟨by rw [hval]; norm_num, fun _ => hval, fun _ => hval, fun _ => hval,
            fun _ => hval, fun _ => hval, fun _ _ _ => hval, ?_⟩
          intro s q arts' _ _ _ _ _ h6
          exact absurd h6 (by simp [hok'])
        case pos =>
          cases lr with
          | error e =>
            cases e
            have hval : get_news_sentiment ⟨nk, okey, Except.ok (a :: as), Except.error ()⟩ = 0 := by
              simp [get_news_sentiment, sentimentCore, hnk, hok]
            refine ⟨by rw [hval]; norm_num, fun _ => hval, fun _ => hval, fun _ => hval,
              fun _ => hval, fun _ => hval, ?_, ?_⟩
            · intro s h _
              exact absurd h (by simp)
            · intro s q arts' _ _ h3 _ _ _
              exact absurd h3 (by simp)
          | ok s =>
            cases hrs : reSearchNumber s.toList with
            | none =>
              have hrs2 : reSearchNumber s.data = none := hrs
              have hval : get_news_sentiment ⟨nk, okey, Except.ok (a :: as), Except.ok s⟩ = 0 := by
                simp [get_news_sentiment, sentimentCore, hnk, hok, hrs2]
              refine ⟨by rw [hval]; norm_num, fun _ => hval, fun _ => hval, fun _ => hval,
                fun _ => hval, fun _ => hval, fun _ _ _ => hval, ?_⟩
              intro s' q arts' _ _ h3 h4 _ _
              injection h3 with hs
              subst hs
              rw [hrs] at h4
              cases h4
            | some q =>
              have hrs2 : reSearchNumber s.data = some q := hrs
              have hval : get_news_sentiment ⟨nk, okey, Except.ok (a :: as), Except.ok s⟩
                  = clampScore q := by
                simp [get_news_sentiment, sentimentCore, hnk, hok, hrs2]
              refine ⟨by rw [hval]; exact clampScore_bounds q,
                fun h => absurd h (by simp [hnk]), fun h => absurd h (by simp),
                fun h => absurd (by injection h) (List.cons_ne_nil a as),
                fun h => absurd h (by simp [hok]), fun h => absurd h (by simp),
                ?_, ?_⟩
              · intro s' h3 h4
                injection h3 with hs
                subst hs
                rw [hrs] at h4
                cases h4
              · intro s' q' arts' _ _ h3 h4 _ _
                injection h3 with hs
                subst hs
                rw [hrs] at h4
                injection h4 with hq
                subst hq
                exact hval

/-- Witness for C10: a healthy environment whose model reply is "2.5";
the parsed score is clamped down to the upper bound 1. -/
theorem c10_witness :
    get_news_sentiment ⟨some "k", some "k", Except.ok [⟨"t", "d"⟩], Except.ok "2.5"⟩
      = clampScore (5 / 2) ∧ clampScore (5 / 2) = 1 := by
  have hg : reSearchGroups "2.5".toList = some (false, [2], [5]) := by decide
  have hq : groupsToQ (false, [2], [5]) = 5 / 2 := by
    norm_num [groupsToQ, natOfDigits, List.foldl]
  have h4 : reSearchNumber "2.5".toList = some (5 / 2) := by
    unfold reSearchNumber
    rw [hg]
    simp [hq]
  refine ⟨(c10_sentiment_bounded_total _).2.2.2.2.2.2.2 "2.5" (5 / 2) [⟨"t", "d"⟩]
      rfl (by simp) rfl h4 (by decide) (by decide), ?_⟩
  norm_num [clampScore]

/-- Applying the same keyed feedback update to a row twice equals
applying it once: the update writes constant field values. -/
theorem setFeedback_idem (recordId : Nat) (f c : String) (r : DbRow) :
    setFeedback recordId f c (setFeedback recordId f c r) = setFeedback recordId f c r := by
  unfold setFeedback
  by_cases h : r.id = recordId <;> simp [h]

/-- After a keyed update on a table where no row already carries the
feedback value `f`, the rows marked `f` are exactly the rows carrying
the key. -/
theorem countP_setFeedback (recordId : Nat) (f c : String) (rows : List DbRow)
    (hfresh : ∀ r ∈ rows, r.userFeedback ≠ some f) :
    (rows.map (setFeedback recordId f c)).countP (fun r => r.userFeedback == some f)
      = rows.countP (fun r => r.id == recordId) := by
  induction rows with
  | nil => simp
  | cons a as ih =>
    have ha := hfresh a (List.mem_cons_self a as)
    have ih2 := ih (fun r hr => hfresh r (List.mem_cons_of_mem a hr))
    simp only [List.map_cons, List.countP_cons, ih2]
    by_cases h : a.id = recordId
    · simp [setFeedback, h]
    · simp [setFeedback, h, ha]

/-- C7: `update_feedback` is idempotent by key — updating the same
record id with "Confirmed" twice equals updating it once, creates no
row, leaves exactly one row marked "Confirmed" (on a table where the id
occurs once and nothing was already marked), and every row with a
different primary key is still present unchanged. -/
theorem c7_feedback_idempotent (db : DbState) (recordId : Nat)
    (hone : db.rows.countP (fun r => r.id == recordId) = 1)
    (hfresh : ∀ r ∈ db.rows, r.userFeedback ≠ some "Confirmed") :
    update_feedback (update_feedback db recordId "Confirmed" "") recordId "Confirmed" ""
      = update_feedback db recordId "Confirmed" "" ∧
    (update_feedback (update_feedback db recordId "Confirmed" "") recordId "Confirmed" "").rows.length
      = db.rows.length ∧
    (update_feedback (update_feedback db recordId "Confirmed" "") recordId "Confirmed" "").rows.countP
      (fun r => r.userFeedback == some "Confirmed") = 1 ∧
    ∀ r ∈ db.rows, r.id ≠ recordId →
      r ∈ (update_feedback (update_feedback db recordId "Confirmed" "") recordId "Confirmed" "").rows := by
  obtain ⟨rows, n⟩ := db
  simp only at hone hfresh
  have hmap : (rows.map (setFeedback recordId "Confirmed" "")).map (setFeedback recordId "Confirmed" "")
      = rows.map (setFeedback recordId "Confirmed" "") := by
    rw [List.map_map]
    exact List.map_congr_left (fun r _ => setFeedback_idem recordId "Confirmed" "" r)
  have hidem : update_feedback (update_feedback ⟨rows, n⟩ recordId "Confirmed" "") recordId "Confirmed" ""
      = update_feedback ⟨rows, n⟩ recordId "Confirmed" "" := by
    show DbState.mk ((rows.map (setFeedback recordId "Confirmed" "")).map (setFeedback recordId "Confirmed" "")) n
      = DbState.mk (rows.map (setFeedback recordId "Confirmed" "")) n
    rw [hmap]
  refine ⟨hidem, ?_, ?_, ?_⟩
  · rw [hidem]
    simp [update_feedback]
  · rw [hidem]
    show (rows.map (setFeedback recordId "Confirmed" "")).countP
        (fun r => r.userFeedback == some "Confirmed") = 1
    rw [countP_setFeedback recordId "Confirmed" "" rows hfresh]
    exact hone
  · intro r hr hne
    rw [hidem]
    show r ∈ rows.map (setFeedback recordId "Confirmed" "")
    exact List.mem_map.mpr ⟨r, hr, by simp [setFeedback, hne]⟩

/-- Concrete two-row table for the C7 witness. -/
def c7Db : DbState :=
  { rows := [⟨1, 0, "BTC-USD", 0, none, none⟩, ⟨2, 0, "ETH-USD", 0, none, none⟩]
    nextId := 3 }

/-- Witness for C7: the double update on a concrete two-row table. -/
theorem c7_witness :
    update_feedback (update_feedback c7Db 1 "Confirmed" "") 1 "Confirmed" ""
      = update_feedback c7Db 1 "Confirmed" "" ∧
    (update_feedback (update_feedback c7Db 1 "Confirmed" "") 1 "Confirmed" "").rows.countP
      (fun r => r.userFeedback == some "Confirmed") = 1 :=
  ⟨(c7_feedback_idempotent c7Db 1 (by decide) (by decide)).1,
   (c7_feedback_idempotent c7Db 1 (by decide) (by decide)).2.2.1⟩

/-- Appending a batch adds exactly one table row per batch row. -/
theorem rowsFrom_length (i : Nat) (l : List DbInputRow) :
    (rowsFrom i l).length = l.length := by
  induction l generalizing i with
  | nil => rfl
  | cons r rs ih => simp [rowsFrom, ih]

/-- Appending preserves each row's (date, coin, price) triple in order. -/
theorem rowsFrom_map_triple (i : Nat) (l : List DbInputRow) :
    (rowsFrom i l).map (fun r => (r.date, r.coin, r.actualPrice))
      = l.map (fun r => (r.date, r.coin, r.actualPrice)) := by
  induction l generalizing i with
  | nil => rfl
  | cons r rs ih => simp [rowsFrom, ih]

/-- Ids are assigned consecutively from the starting id: they record
insertion order. -/
theorem rowsFrom_map_id (i : Nat) (l : List DbInputRow) :
    (rowsFrom i l).map (fun r => r.id) = List.range' i l.length := by
  induction l generalizing i with
  | nil => rfl
  | cons r rs ih =>
    rw [List.length_cons, List.range'_succ]
    simp [rowsFrom, ih]

/-- Every appended row's id is at least the starting id. -/
theorem rowsFrom_id_ge (i : Nat) (l : List DbInputRow) :
    ∀ r ∈ rowsFrom i l, i ≤ r.id := by
  induction l generalizing i with
  | nil =>
    intro r hr
    cases hr
  | cons x xs ih =>
    intro r hr
    rcases List.mem_cons.mp hr with h | h
    · subst h
      exact Nat.le_refl i
    · exact Nat.le_of_succ_le (ih (i + 1) r h)

/-- Appended rows carry strictly increasing ids. -/
theorem rowsFrom_pairwise (i : Nat) (l : List DbInputRow) :
    (rowsFrom i l).Pairwise (fun a b => a.id < b.id) := by
  induction l generalizing i with
  | nil => exact List.Pairwise.nil
  | cons x xs ih =>
    refine List.Pairwise.cons ?_ (ih (i + 1))
    intro b hb
    exact Nat.lt_of_lt_of_le (Nat.lt_succ_self i) (rowsFrom_id_ge (i + 1) xs b hb)

/-- Unfolding of the `ORDER BY "Date" DESC, id DESC` comparison. -/
theorem loadLe_iff (a b : DbRow) :
    loadLe a b = true ↔ b.date < a.date ∨ (b.date = a.date ∧ b.id ≤ a.id) := by
  simp [loadLe]

/-- The load ordering is transitive. -/
theorem loadLe_trans (a b c : DbRow)
    (h1 : loadLe a b = true) (h2 : loadLe b c = true) : loadLe a c = true := by
  rw [loadLe_iff] at h1 h2 ⊢
  omega

/-- The load ordering is total. -/
theorem loadLe_total (a b : DbRow) : (loadLe a b || loadLe b a) = true := by
  rw [Bool.or_eq_true, loadLe_iff, loadLe_iff]
  omega

/-- C5: saving a batch of N assembled records into the empty table and
loading returns N rows, whose (date, coin, actual_price) triples are a
permutation of the batch's, with ids recording insertion order and the
output sorted most-recent-first by date and, within equal dates, by
strictly descending id (descending insertion order). -/
theorem c5_roundtrip (batch : List DbInputRow) :
    (load_forecast_results (save_forecast_results dbEmpty batch)).length = batch.length ∧
    ((load_forecast_results (save_forecast_results dbEmpty batch)).map
        (fun r => (r.date, r.coin, r.actualPrice))).Perm
      (batch.map (fun r => (r.date, r.coin, r.actualPrice))) ∧
    ((save_forecast_results dbEmpty batch).rows.map (fun r => r.id))
      = List.range batch.length ∧
    (load_forecast_results (save_forecast_results dbEmpty batch)).Pairwise
      (fun a b => b.date < a.date ∨ (b.date = a.date ∧ b.id < a.id)) := by
  have hrows : (save_forecast_results dbEmpty batch).rows = rowsFrom 0 batch := by
    simp [save_forecast_results, dbEmpty]
  have hperm : (load_forecast_results (save_forecast_results dbEmpty batch)).Perm
      (rowsFrom 0 batch) := by
    rw [load_forecast_results, hrows]
    exact List.mergeSort_perm _ _
  refine ⟨?_, ?_, ?_, ?_⟩
  · rw [hperm.length_eq, rowsFrom_length]
  · have h := hperm.map (fun r => (r.date, r.coin, r.actualPrice))
    rw [rowsFrom_map_triple] at h
    exact h
  · rw [hrows, rowsFrom_map_id, List.range_eq_range']
  · have hsorted : (load_forecast_results (save_forecast_results dbEmpty batch)).Pairwise
        (fun a b => loadLe a b = true) := by
      rw [load_forecast_results]
      exact List.sorted_mergeSort (fun a b c => loadLe_trans a b c) loadLe_total _
    have hne : (load_forecast_results (save_forecast_results dbEmpty batch)).Pairwise
        (fun a b => a.id ≠ b.id) := by
      refine (hperm.pairwise_iff (fun h => h.symm)).mpr ?_
      exact (rowsFrom_pairwise 0 batch).imp (fun h => Nat.ne_of_lt h)
    refine (hsorted.and hne).imp ?_
    intro a b h
    obtain ⟨hle, hne2⟩ := h
    rw [loadLe_iff] at hle
    omega

/-- Reduction of `fetch_data` when the primary price fetch succeeds and
no fundamentals-helper exception escapes. -/
theorem fetch_data_ok (env : FetchEnv) (bars : List PriceBar)
    (h : env.priceFetch = Except.ok bars) (hcg : env.coingecko.escapes = false) :
    fetch_data env = if bars.isEmpty then []
      else (enrichFrom env 0 bars).filter (fun r => r.ind.complete) := by
  unfold fetch_data
  rw [h, hcg]
  simp

/-- Reduction of `fetch_data` when the primary price fetch raises. -/
theorem fetch_data_error (env : FetchEnv) (e : Unit)
    (h : env.priceFetch = Except.error e) : fetch_data env = [] := by
  unfold fetch_data
  rw [h]

/-- An exception escaping the fundamentals helper empties the whole
fetch: it reaches `fetch_data`'s outer except. -/
theorem fetch_data_escaped (env : FetchEnv) (bars : List PriceBar)
    (h : env.priceFetch = Except.ok bars) (hcg : env.coingecko.escapes = true) :
    fetch_data env = [] := by
  unfold fetch_data
  rw [h]
  by_cases hb : bars.isEmpty
  · simp [hb]
  · simp [hb, hcg]

/-- A row survives `dropna` exactly when its index has passed the
longest indicator warm-up (the MACD signal line, 33 rows). -/
theorem indCols_complete (lib : Nat → Nat → ℚ) (i : Nat) :
    (indCols lib i).complete = true ↔ 33 ≤ i := by
  unfold indCols IndCols.complete
  by_cases h : 33 ≤ i
  · have h19 : 19 ≤ i := by omega
    have h14 : 14 ≤ i := by omega
    have h25 : 25 ≤ i := by omega
    have h13 : 13 ≤ i := by omega
    have h15 : 15 ≤ i := by omega
    simp [h, h19, h14, h25, h13, h15]
  · simp [h]

/-- Every row of an enriched frame is some `mkRow` of the same
environment. -/
theorem enrichFrom_mem (env : FetchEnv) (i : Nat) (bars : List PriceBar) :
    ∀ r ∈ enrichFrom env i bars, ∃ b j, r = mkRow env b j := by
  induction bars generalizing i with
  | nil =>
    intro r hr
    cases hr
  | cons b bs ih =>
    intro r hr
    rcases List.mem_cons.mp hr with h | h
    · exact ⟨b, i, h⟩
    · exact ih (i + 1) r h

/-- Number of rows of an enriched frame surviving `dropna`: the bars
beyond the 33-row warm-up still ahead of position `i`. -/
theorem enrichFrom_filter_length (env : FetchEnv) (i : Nat) (bars : List PriceBar) :
    ((enrichFrom env i bars).filter (fun r => r.ind.complete)).length
      = bars.length - (33 - i) := by
  induction bars generalizing i with
  | nil => simp [enrichFrom]
  | cons b bs ih =>
    simp only [enrichFrom, List.filter_cons]
    by_cases h : 33 ≤ i
    · have hc : (mkRow env b i).ind.complete = true := (indCols_complete env.lib i).mpr h
      simp only [hc, if_true, List.length_cons, ih (i + 1)]
      omega
    · have hc : (mkRow env b i).ind.complete = false := by
        have := (indCols_complete env.lib i).not
        show (indCols env.lib i).complete = false
        simp only [Bool.not_eq_true] at this ⊢
        by_contra hcon
        simp only [Bool.not_eq_false] at hcon
        exact h ((indCols_complete env.lib i).mp hcon)
      simp only [hc, if_false, Bool.false_eq_true, List.length_cons, ih (i + 1)]
      omega

/-- Length of a successful, non-escaping `fetch_data` result: the
fetched bars minus the 33-row indicator warm-up dropped by `dropna`,
for any outcomes of the four fallible metric providers. -/
theorem fetch_data_length (env : FetchEnv) (bars : List PriceBar)
    (h : env.priceFetch = Except.ok bars) (hcg : env.coingecko.escapes = false) :
    (fetch_data env).length = bars.length - 33 := by
  rw [fetch_data_ok env bars h hcg]
  cases bars with
  | nil => simp
  | cons b bs =>
    rw [if_neg (by simp)]
    rw [enrichFrom_filter_length env 0 (b :: bs)]

/-- Every returned row of a successful `fetch_data` is an `mkRow` of the
same environment. -/
theorem fetch_data_mem (env : FetchEnv) (bars : List PriceBar)
    (h : env.priceFetch = Except.ok bars) (hcg : env.coingecko.escapes = false) :
    ∀ r ∈ fetch_data env, ∃ b j, r = mkRow env b j := by
  intro r hr
  rw [fetch_data_ok env bars h hcg] at hr
  by_cases hb : bars.isEmpty
  · rw [if_pos hb] at hr
    cases hr
  · rw [if_neg hb] at hr
    exact enrichFrom_mem env 0 bars r (List.mem_of_mem_filter hr)

/-- The same `fetch_data` inputs with the four fallible metric-provider
outcomes replaced. -/
def withProviders (env : FetchEnv) (cg : CoingeckoResult)
    (fu : Option CoinglassMetrics) (sa : Option SantimentMetrics)
    (lu : Option LunarMetrics) : FetchEnv :=
  { env with coingecko := cg, coinglass := fu, santiment := sa, lunar := lu }

/-- A concrete OHLCV bar. -/
def c3Bar : PriceBar := ⟨1, 2, 1, 1, 1⟩

/-- Concrete `fetch_data` inputs: the primary fetch succeeds with a
non-empty 30-bar history and every provider succeeds. -/
def c3Env : FetchEnv :=
  { priceFetch := Except.ok (List.replicate 30 c3Bar)
    coingecko := CoingeckoResult.data ⟨1, 1, 1, 1, 1, 1, 1⟩
    coinglass := some ⟨1, 1, 1, 1⟩
    santiment := some ⟨1, 1, 1⟩
    lunar := some ⟨1, 1⟩
    lib := fun _ _ => 0 }

/-- The same inputs with the futures provider failing. -/
def c3EnvFail : FetchEnv := { c3Env with coinglass := none }

/-- Concrete `fetch_data` inputs: a healthy 180-bar fetch, but the
fundamentals helper raises an exception its handler does not catch
(e.g. `AttributeError` on a 2xx body whose `market_data` is null). -/
def c3EnvRaised : FetchEnv :=
  { priceFetch := Except.ok (List.replicate 180 c3Bar)
    coingecko := CoingeckoResult.raised
    coinglass := some ⟨1, 1, 1, 1⟩
    santiment := some ⟨1, 1, 1⟩
    lunar := some ⟨1, 1⟩
    lib := fun _ _ => 1 }

/-- C3 counterexample, refuting the claim twice.  First: on a
successful, non-empty, 30-bar primary fetch, `fetch_data` returns the
empty frame — every row still carries an indicator warm-up NaN, so
`df.dropna` removes all of them — both with all providers healthy and
with a failed futures provider, so an empty return does not only signal
a failed or empty primary fetch and a provider failure on such a frame
does not yield a non-empty zero-columned frame.  Second: on a healthy
180-bar fetch, an exception escaping the fundamentals helper (whose
handler catches only `RequestException`) reaches `fetch_data`'s outer
except and also returns the empty frame — a single metric provider's
failure that does fail the overall fetch. -/
theorem c3_counterexample :
    c3Env.priceFetch = Except.ok (List.replicate 30 c3Bar) ∧
    (List.replicate 30 c3Bar : List PriceBar) ≠ [] ∧
    fetch_data c3Env = [] ∧
    fetch_data c3EnvFail = [] ∧
    c3EnvRaised.priceFetch = Except.ok (List.replicate 180 c3Bar) ∧
    c3EnvRaised.coingecko.escapes = true ∧
    fetch_data c3EnvRaised = [] := by
  have h1 := fetch_data_length c3Env (List.replicate 30 c3Bar) rfl rfl
  have h2 := fetch_data_length c3EnvFail (List.replicate 30 c3Bar) rfl rfl
  rw [List.length_replicate] at h1 h2
  refine ⟨rfl, by simp, ?_, ?_, rfl, rfl, ?_⟩
  · exact List.length_eq_zero.mp (by omega)
  · exact List.length_eq_zero.mp (by omega)
  · exact fetch_data_escaped c3EnvRaised (List.replicate 180 c3Bar) rfl rfl

/-- C3 amended: within `fetch_data`, a failure of the futures,
on-chain/social or social-ranking helper (all of which catch every
exception and return the empty dict), or the caught-`RequestException`
failure of the fundamentals helper, only zeroes the failed provider's
own columns; the surviving row count is the same across all such
non-escaping provider outcomes.  But the fundamentals helper's handler
catches only `RequestException`: any other exception escapes into
`fetch_data`'s outer except and empties the whole frame.  And after a
successful, non-escaping run the returned frame is the post-`dropna`
frame, non-empty exactly when at least 34 bars survive the modelled
33-row indicator warm-up — so a successful-but-short price history (at
most 33 bars) also yields the empty frame.  The empty-frame skip signal
is therefore produced by a failed or empty primary fetch, by a
non-`RequestException` escape from the fundamentals helper, or by a
price history too short for the indicator warm-up. -/
theorem c3_amended (env : FetchEnv) (bars : List PriceBar)
    (h : env.priceFetch = Except.ok bars) :
    (env.coinglass = none → ∀ r ∈ fetch_data env,
      r.fundingRate = 0 ∧ r.openInterest = 0 ∧ r.longShort = 0 ∧ r.futuresVol = 0) ∧
    (env.santiment = none → ∀ r ∈ fetch_data env,
      r.mvrv = 0 ∧ r.socialDominance = 0 ∧ r.dailyActive = 0) ∧
    (env.lunar = none → ∀ r ∈ fetch_data env,
      r.galaxyScore = 0 ∧ r.altRank = 0) ∧
    (env.coingecko = CoingeckoResult.empty → ∀ r ∈ fetch_data env,
      r.marketCapRank = 0 ∧ r.allTimeHigh = 0 ∧ r.txVolume = 0 ∧ r.circSupply = 0 ∧
      r.communityScore = 0 ∧ r.developerScore = 0 ∧ r.sentimentUpPct = 0) ∧
    (∀ r ∈ fetch_data env, r.exchangeSupply = 0 ∧ r.exchangeNetFlow = 0) ∧
    (∀ cg fu sa lu, cg.escapes = false → env.coingecko.escapes = false →
      (fetch_data (withProviders env cg fu sa lu)).length
        = (fetch_data env).length) ∧
    (env.coingecko.escapes = true → fetch_data env = []) ∧
    (env.coingecko.escapes = false → 34 ≤ bars.length → fetch_data env ≠ []) ∧
    (env.coingecko.escapes = false → (fetch_data env).length = bars.length - 33) := by
  have hmem : env.coingecko.escapes = false →
      ∀ r ∈ fetch_data env, ∃ b j, r = mkRow env b j :=
    fun hcg => fetch_data_mem env bars h hcg
  have hvac : env.coingecko.escapes = true → ∀ r ∈ fetch_data env, False := by
    intro hcg r hr
    rw [fetch_data_escaped env bars h hcg] at hr
    cases hr
  have hrow : ∀ r ∈ fetch_data env, ∃ b j, r = mkRow env b j := by
    intro r hr
    cases hcg : env.coingecko.escapes with
    | true => exact absurd hr (by rw [fetch_data_escaped env bars h hcg]; simp)
    | false => exact hmem hcg r hr
  refine ⟨?_, ?_, ?_, ?_, ?_, ?_, ?_, ?_, fun hcg => fetch_data_length env bars h hcg⟩
  · intro hfu r hr
    obtain ⟨b, j, rfl⟩ := hrow r hr
    simp [mkRow, hfu]
  · intro hsa r hr
    obtain ⟨b, j, rfl⟩ := hrow r hr
    simp [mkRow, hsa]
  · intro hlu r hr
    obtain ⟨b, j, rfl⟩ := hrow r hr
    simp [mkRow, hlu]
  · intro hgk r hr
    obtain ⟨b, j, rfl⟩ := hrow r hr
    simp [mkRow, hgk, CoingeckoResult.dict]
  · intro r hr
    obtain ⟨b, j, rfl⟩ := hrow r hr
    simp [mkRow, fetch_cryptoquant_data]
  · intro cg fu sa lu hcg1 hcg2
    rw [fetch_data_length (withProviders env cg fu sa lu) bars h hcg1,
      fetch_data_length env bars h hcg2]
  · intro hcg
    exact fetch_data_escaped env bars h hcg
  · intro hcg h34 hnil
    have hl := fetch_data_length env bars h hcg
    rw [hnil] at hl
    simp only [List.length_nil] at hl
    omega

/-- Concrete inputs for the C3 witness: 40 bars fetched, futures
provider failed. -/
def c3EnvOk : FetchEnv :=
  { c3Env with priceFetch := Except.ok (List.replicate 40 c3Bar), coinglass := none }

/-- Witness for C3 amended: with 40 fetched bars and the futures
provider failing, the frame is non-empty, 7 rows survive, and the four
futures columns are zero in every row. -/
theorem c3_witness :
    c3EnvOk.priceFetch = Except.ok (List.replicate 40 c3Bar) ∧
    (fetch_data c3EnvOk).length = (List.replicate 40 c3Bar : List PriceBar).length - 33 ∧
    fetch_data c3EnvOk ≠ [] ∧
    (∀ r ∈ fetch_data c3EnvOk,
      r.fundingRate = 0 ∧ r.openInterest = 0 ∧ r.longShort = 0 ∧ r.futuresVol = 0) := by
  have hc := c3_amended c3EnvOk (List.replicate 40 c3Bar) rfl
  exact ⟨rfl, hc.2.2.2.2.2.2.2.2 rfl, hc.2.2.2.2.2.2.2.1 rfl (by simp), hc.1 rfl⟩

/-- C2: an asset whose fetched frame is empty or has fewer than 61 rows
is skipped by the guard of src/daily_runner.py lines 78-80 — no record
is assembled for it and nothing of it reaches the batch — while the loop
carries on over the remaining assets exactly as if the asset were
absent. -/
theorem c2_short_frame_skipped (t : Int) (c : String) (env : FetchEnv)
    (h : (fetch_data env).length < 61) :
    processAsset t c env = none ∧
    ∀ rest : List (String × FetchEnv), runBatch t ((c, env) :: rest) = runBatch t rest := by
  have hnone : processAsset t c env = none := by
    simp [processAsset, h]
  refine ⟨hnone, fun rest => ?_⟩
  simp [runBatch, List.filterMap_cons, hnone]

/-- Concrete inputs for the C2 witness: a successful 10-bar fetch, all
providers down. -/
def c2Env : FetchEnv :=
  { priceFetch := Except.ok (List.replicate 10 c3Bar)
    coingecko := CoingeckoResult.empty
    coinglass := none
    santiment := none
    lunar := none
    lib := fun _ _ => 0 }

/-- Witness for C2: a 10-bar asset is skipped and the batch equals the
batch of the remaining assets. -/
theorem c2_witness :
    (fetch_data c2Env).length < 61 ∧
    processAsset 0 "BTC-USD" c2Env = none ∧
    runBatch 0 [("BTC-USD", c2Env)] = runBatch 0 [] := by
  have hlen := fetch_data_length c2Env (List.replicate 10 c3Bar) rfl rfl
  rw [List.length_replicate] at hlen
  have hlt : (fetch_data c2Env).length < 61 := by omega
  exact ⟨hlt, (c2_short_frame_skipped 0 "BTC-USD" c2Env hlt).1,
    (c2_short_frame_skipped 0 "BTC-USD" c2Env hlt).2 []⟩

/-- Concrete inputs for C1's failing run: a healthy 180-bar fetch and
all six providers succeeding. -/
def c1Env : FetchEnv :=
  { priceFetch := Except.ok (List.replicate 180 c3Bar)
    coingecko := CoingeckoResult.data ⟨1, 1, 1, 1, 1, 1, 1⟩
    coinglass := some ⟨1, 1, 1, 1⟩
    santiment := some ⟨1, 1, 1⟩
    lunar := some ⟨1, 1⟩
    lib := fun _ _ => 1 }

/-- C1 is a code bug; this theorem evaluates the code at the failing
input.  The revision cannot produce an AssetSnapshot under any
provider-failure combination — or under none at all: (i) the import of
`prophet_forecast_highs` (src/daily_runner.py line 35) does not resolve
against src/forecasting.py, so the process exits at import time; (ii)
even were the loop body reached, the `get_news_sentiment` call of
line 92 passes an `api_key` keyword rejected by the signature at
src/sentiment.py line 7 (and unpacks one float into two names), so every
asset raises, is caught by the per-asset handler and is skipped — shown
here for every environment and for a fully healthy 180-bar asset. -/
theorem c1_no_snapshot_ever :
    importsResolve = false ∧
    kwargsAccepted sentimentParams runnerSentimentCallKwargs = false ∧
    (∀ (t : Int) (c : String) (env : FetchEnv), processAsset t c env = none) ∧
    (∀ (t : Int) (assets : List (String × FetchEnv)) (db : DbState),
      run_daily_analysis t assets db = none) ∧
    processAsset 0 "BTC-USD" c1Env = none := by
  have himp : importsResolve = false := by decide
  have hall : ∀ (t : Int) (c : String) (env : FetchEnv), processAsset t c env = none := by
    intro t c env
    simp only [processAsset]
    split
    · rfl
    · rfl
  refine ⟨himp, by decide, hall, ?_, hall 0 "BTC-USD" c1Env⟩
  intro t assets db
  simp [run_daily_analysis, himp]
